import Mathlib

set_option autoImplicit false

/-!
Shallow embedding of `irrd/mirroring/scheduler.py` (the `MirrorScheduler`
periodic-task orchestrator) and verification of its specification.

Modelling conventions:
* Python wall-clock floats (`time.time()`) are modelled as rationals `ℚ`;
  `int(...)` truncation toward zero is `pyTrunc`.
* Python dicts (`self.processes`, `self.last_started_time`) are association
  lists in insertion order; `last_started_time` is a `defaultdict(lambda: 0)`,
  so lookups default to `0`.  (Reading a missing key materialises it with the
  default `0` in Python; that is invisible at the value level, so the model
  does not materialise it.)
* Settings read through `get_setting` are carried in a `Config` record; a
  setting used only for its Python truthiness becomes a `Bool`.
* The scope-filter exclusion snapshot is a Python `set`, modelled as
  `Finset String` (compared by set equality, like `set.__eq__`).
* Each `run_if_relevant` call reads the clock once (`current_time`); the
  model passes that instant in as the parameter `now`.  Within one `run()`
  pass the clock is modelled as constant.
-/

namespace IrrdScheduler

abbrev Identity := String

/-- The closed set of runner classes passed to `run_if_relevant`
(`ROAImportRunner`, `RoutePreferenceUpdateRunner`, `ScopeFilterUpdateRunner`,
`RPSLMirrorImportUpdateRunner`, `SourceExportRunner`). -/
inductive RunnerClass where
  | ROAImportRunner
  | RoutePreferenceUpdateRunner
  | ScopeFilterUpdateRunner
  | RPSLMirrorImportUpdateRunner
  | SourceExportRunner
  deriving DecidableEq, Repr

/-- `runner_class.__name__` for each runner class. -/
def RunnerClass.className : RunnerClass → String
  | .ROAImportRunner => "ROAImportRunner"
  | .RoutePreferenceUpdateRunner => "RoutePreferenceUpdateRunner"
  | .ScopeFilterUpdateRunner => "ScopeFilterUpdateRunner"
  | .RPSLMirrorImportUpdateRunner => "RPSLMirrorImportUpdateRunner"
  | .SourceExportRunner => "SourceExportRunner"

/-- A constructed job runner: `runner_class(**kwargs)`, where `kwargs` holds
`source` exactly when the `source` argument was truthy. -/
structure RunnerInstance where
  cls : RunnerClass
  source_kwarg : Option String
  deriving DecidableEq, Repr

/-- A `ScheduledTaskProcess(runner=initiator, name=process_name)` after
`process.start()`: `started` records that the OS process was started. -/
structure ScheduledTaskProcess where
  runner : RunnerInstance
  name : String
  started : Bool
  deriving DecidableEq, Repr

/-- Per-source settings consumed by `run()` via `get_setting`.  Settings used
only for their truthiness (`import_source`, `nrtm_host`,
`export_destination`, `export_destination_unfiltered`,
`route_object_preference`, `scopefilter_excluded`) are `Bool`; the timers are
`Option Int` (`none` = unset, so the default applies). -/
structure SourceSettings where
  import_source : Bool
  nrtm_host : Bool
  import_timer : Option Int
  export_destination : Bool
  export_destination_unfiltered : Bool
  export_timer : Option Int
  route_object_preference : Bool
  scopefilter_excluded : Bool
  deriving DecidableEq, Repr

/-- The settings source as read by the scheduler.  `sources` is the ordered
map of configured sources (`get_setting("sources")`). -/
structure Config where
  readonly_standby : Bool
  rpki_roa_source : Bool
  rpki_roa_import_timer : Int
  route_object_preference_update_timer : Int
  scopefilter : Bool
  scopefilter_prefixes : List String
  scopefilter_asns : List Int
  sources : List (String × SourceSettings)
  deriving DecidableEq, Repr

/-- Modelled from the spec: `DEFAULT_SOURCE_IMPORT_TIMER` is imported from
`irrd.conf.defaults`, which is not part of the verified sources; the spec
says timers default to a kind-specific constant when unset.  No claim
depends on the value. -/
def DEFAULT_SOURCE_IMPORT_TIMER : Int := 300

/-- Modelled from the spec: `DEFAULT_SOURCE_EXPORT_TIMER` is imported from
`irrd.conf.defaults`, which is not part of the verified sources.  No claim
depends on the value. -/
def DEFAULT_SOURCE_EXPORT_TIMER : Int := 3600

def MAX_SIMULTANEOUS_RUNS : Nat := 3

/-- The in-memory state of a `MirrorScheduler` instance.  `signaller_runs` is
modelled from the spec: `TransactionTimePreloadSignaller` (from
`irrd.mirroring.jobs`, not part of the verified sources) runs inline and
keeps state in the instance; the model records only how many times its
`run()` was invoked. -/
structure MirrorScheduler where
  processes : List (Identity × ScheduledTaskProcess)
  last_started_time : List (Identity × Int)
  previous_scopefilter_prefixes : Option (List String)
  previous_scopefilter_asns : Option (List Int)
  previous_scopefilter_excluded : Option (Finset String)
  signaller_runs : Nat
  deriving DecidableEq

/-- `MirrorScheduler.__init__`: empty dicts, `None` snapshots. -/
def MirrorScheduler.init : MirrorScheduler :=
  { processes := []
    last_started_time := []
    previous_scopefilter_prefixes := none
    previous_scopefilter_asns := none
    previous_scopefilter_excluded := none
    signaller_runs := 0 }

/-- Dict lookup (`d[k]` / `k in d`) on an insertion-ordered association list. -/
def alookup {α : Type} (m : List (Identity × α)) (k : Identity) : Option α :=
  match m with
  | [] => none
  | (k', v) :: rest => if k' = k then some v else alookup rest k

/-- Dict assignment `d[k] = v`: replaces in place if the key exists,
otherwise appends (Python dicts preserve insertion order). -/
def ainsert {α : Type} (m : List (Identity × α)) (k : Identity) (v : α) :
    List (Identity × α) :=
  match m with
  | [] => [(k, v)]
  | (k', v') :: rest =>
    if k' = k then (k, v) :: rest else (k', v') :: ainsert rest k v

/-- `self.last_started_time[name]` on the `defaultdict(lambda: 0)`: defaults
to `0` for an identity never started. -/
def lookupLast (m : List (Identity × Int)) (k : Identity) : Int :=
  (alookup m k).getD 0

/-- Python `int()` applied to a float: truncation toward zero. -/
def pyTrunc (q : ℚ) : Int :=
  q.num.tdiv (q.den : Int)

/-- Python truthiness of an `Optional[str]`: `None` and `""` are falsy. -/
def optStrTruthy : Option String → Bool
  | none => false
  | some s => !s.isEmpty

/-- `process_name = runner_class.__name__`, plus `f"-{source}"` when `source`
is truthy. -/
def processName (rc : RunnerClass) (source : Option String) : Identity :=
  if optStrTruthy source then rc.className ++ "-" ++ source.getD "" else rc.className

/-- `has_expired = (self.last_started_time[process_name] + timer) < current_time`:
an `int + int` compared against the float clock. -/
def has_expired (last timer : Int) (now : ℚ) : Bool :=
  decide (((last + timer : Int) : ℚ) < now)

/-- `MirrorScheduler.run_if_relevant(source, runner_class, timer)`.  Returns
the Python return value together with the updated scheduler state; `now` is
the value of `time.time()` at entry. -/
def run_if_relevant (st : MirrorScheduler) (source : Option String)
    (rc : RunnerClass) (timer : Int) (now : ℚ) : Bool × MirrorScheduler :=
  let pname := processName rc source
  if !has_expired (lookupLast st.last_started_time pname) timer now
      || (alookup st.processes pname).isSome then
    (false, st)
  else
    let kwargs_source : Option String := if optStrTruthy source then source else none
    let initiator : RunnerInstance := { cls := rc, source_kwarg := kwargs_source }
    let process : ScheduledTaskProcess :=
      { runner := initiator, name := pname, started := true }
    (true,
      { st with
        processes := ainsert st.processes pname process
        last_started_time := ainsert st.last_started_time pname (pyTrunc now) })

/-- The exclusion snapshot: the set comprehension over
`get_setting("sources", {}).items()` keeping names with a truthy
`scopefilter_excluded`. -/
def currentExclusions (cfg : Config) : Finset String :=
  ((cfg.sources.filter (fun e => e.2.scopefilter_excluded)).map (fun e => e.1)).toFinset

/-- `MirrorScheduler._check_scopefilter_change()`: returns the Python return
value and the updated snapshot state. -/
def check_scopefilter_change (cfg : Config) (st : MirrorScheduler) :
    Bool × MirrorScheduler :=
  if !cfg.scopefilter then
    (false, st)
  else
    let current_prefixes := cfg.scopefilter_prefixes
    let current_asns := cfg.scopefilter_asns
    let current_exclusions := currentExclusions cfg
    if st.previous_scopefilter_prefixes ≠ some current_prefixes
        ∨ st.previous_scopefilter_asns ≠ some current_asns
        ∨ st.previous_scopefilter_excluded ≠ some current_exclusions then
      (true,
        { st with
          previous_scopefilter_prefixes := some current_prefixes
          previous_scopefilter_asns := some current_asns
          previous_scopefilter_excluded := some current_exclusions })
    else
      (false, st)

/-- The per-source loop of `MirrorScheduler.run()`: iterates the configured
sources carrying `sources_started`, breaking once
`sources_started >= MAX_SIMULTANEOUS_RUNS`.  Returns the final state and the
final value of `sources_started`. -/
def runSources (now : ℚ) :
    List (String × SourceSettings) → MirrorScheduler → Nat → MirrorScheduler × Nat
  | [], st, sources_started => (st, sources_started)
  | (source, ss) :: rest, st, sources_started =>
    if MAX_SIMULTANEOUS_RUNS ≤ sources_started then (st, sources_started)
    else
      let is_mirror := ss.import_source || ss.nrtm_host
      let import_timer := ss.import_timer.getD DEFAULT_SOURCE_IMPORT_TIMER
      let r1 :=
        if is_mirror then
          run_if_relevant st (some source) .RPSLMirrorImportUpdateRunner import_timer now
        else (false, st)
      let started_import := r1.1
      let runs_export := ss.export_destination || ss.export_destination_unfiltered
      let export_timer := ss.export_timer.getD DEFAULT_SOURCE_EXPORT_TIMER
      let r2 :=
        if runs_export then
          run_if_relevant r1.2 (some source) .SourceExportRunner export_timer now
        else (false, r1.2)
      let started_export := r2.1
      runSources now rest r2.2
        (if started_import || started_export then sources_started + 1 else sources_started)

/-- The singleton-job phase of `MirrorScheduler.run()`: the ROA import,
route-preference update and scope-filter update evaluations, in source
order. -/
def runSingletonJobs (cfg : Config) (st : MirrorScheduler) (now : ℚ) :
    MirrorScheduler :=
  let st1 :=
    if cfg.rpki_roa_source then
      (run_if_relevant st none .ROAImportRunner cfg.rpki_roa_import_timer now).2
    else st
  let st2 :=
    if !cfg.sources.isEmpty
        && cfg.sources.any (fun e => e.2.route_object_preference) then
      (run_if_relevant st1 none .RoutePreferenceUpdateRunner
        cfg.route_object_preference_update_timer now).2
    else st1
  let rc := check_scopefilter_change cfg st2
  if rc.1 then (run_if_relevant rc.2 none .ScopeFilterUpdateRunner 0 now).2
  else rc.2

/-- `MirrorScheduler.run()`: one scheduling pass, with `now` the (modelled
constant) clock during the pass. -/
def MirrorScheduler.run (cfg : Config) (st : MirrorScheduler) (now : ℚ) :
    MirrorScheduler :=
  if cfg.readonly_standby then
    { st with signaller_runs := st.signaller_runs + 1 }
  else
    (runSources now cfg.sources (runSingletonJobs cfg st now) 0).1

/-- Result of one `update_process_state()` pass over the tracked processes:
the surviving process dict, the names whose `close()` was invoked (in
iteration order), the names whose `close()` raised (the logged errors), and
whether `gc_collect_needed` ended up true. -/
structure ReapResult where
  procs : List (Identity × ScheduledTaskProcess)
  closed : List Identity
  errors : List Identity
  gc_collect_needed : Bool
  deriving DecidableEq

/-- The loop body of `update_process_state()` over
`list(self.processes.items())`: liveness (`process.is_alive()`) and whether
`process.close()` raises are environment facts, passed in as the oracles
`is_alive` and `close_fails` keyed by process name. -/
def reapProcesses (is_alive close_fails : Identity → Bool) :
    List (Identity × ScheduledTaskProcess) → ReapResult
  | [] => ⟨[], [], [], false⟩
  | (name, p) :: rest =>
    let r := reapProcesses is_alive close_fails rest
    if is_alive name then
      ⟨(name, p) :: r.procs, r.closed, r.errors, r.gc_collect_needed⟩
    else
      ⟨r.procs, name :: r.closed,
        (if close_fails name then name :: r.errors else r.errors), true⟩

/-- Result of `MirrorScheduler.update_process_state()`. -/
structure UpdateResult where
  state : MirrorScheduler
  closed : List Identity
  errors : List Identity
  gc_ran : Bool
  deriving DecidableEq

/-- `MirrorScheduler.update_process_state()`: reaps OS-level zombies (an
external effect, not modelled), then closes and removes every tracked
process that is no longer alive; `gc.collect()` runs when at least one was
removed. -/
def update_process_state (st : MirrorScheduler)
    (is_alive close_fails : Identity → Bool) : UpdateResult :=
  let r := reapProcesses is_alive close_fails st.processes
  ⟨{ st with processes := r.procs }, r.closed, r.errors, r.gc_collect_needed⟩


/-- Facts about a state transition that matter for the scope-filter job: the
`ScopeFilterUpdateRunner` dict entry and the stored snapshot are unchanged. -/
def sfPreserved (st2 st : MirrorScheduler) : Prop :=
  alookup st2.processes "ScopeFilterUpdateRunner"
      = alookup st.processes "ScopeFilterUpdateRunner"
    ∧ st2.previous_scopefilter_prefixes = st.previous_scopefilter_prefixes
    ∧ st2.previous_scopefilter_asns = st.previous_scopefilter_asns
    ∧ st2.previous_scopefilter_excluded = st.previous_scopefilter_excluded

/-- Fixture: a mirror-enabled source (import origin set, timer 0). -/
def egMirrorSource : SourceSettings :=
  { import_source := true, nrtm_host := false, import_timer := some 0
    export_destination := false, export_destination_unfiltered := false
    export_timer := some 0, route_object_preference := false
    scopefilter_excluded := false }

/-- Fixture: a source that is neither a mirror nor an exporter. -/
def egIdleSource : SourceSettings :=
  { import_source := false, nrtm_host := false, import_timer := some 0
    export_destination := false, export_destination_unfiltered := false
    export_timer := some 0, route_object_preference := false
    scopefilter_excluded := false }

/-- Fixture: a baseline configuration with everything off. -/
def egBaseConfig : Config :=
  { readonly_standby := false, rpki_roa_source := false
    rpki_roa_import_timer := 0, route_object_preference_update_timer := 0
    scopefilter := false, scopefilter_prefixes := [], scopefilter_asns := []
    sources := [] }

/-- Fixture: five mirror-enabled sources, all due at once. -/
def cfgFiveMirrorSources : Config :=
  { egBaseConfig with
    sources := [("S1", egMirrorSource), ("S2", egMirrorSource),
      ("S3", egMirrorSource), ("S4", egMirrorSource), ("S5", egMirrorSource)] }

/-- Fixture: an idle first source followed by four due mirror sources. -/
def cfgIdleFirstSource : Config :=
  { egBaseConfig with
    sources := [("S1", egIdleSource), ("S2", egMirrorSource),
      ("S3", egMirrorSource), ("S4", egMirrorSource), ("S5", egMirrorSource)] }

/-- Fixture: all three singleton jobs enabled plus four due mirror sources. -/
def cfgSingletonsAndSources : Config :=
  { egBaseConfig with
    rpki_roa_source := true
    scopefilter := true
    scopefilter_prefixes := ["192.0.2.0/24"]
    scopefilter_asns := [64500]
    sources := [("S1", { egMirrorSource with route_object_preference := true }),
      ("S2", egMirrorSource), ("S3", egMirrorSource), ("S4", egMirrorSource)] }

/-- Fixture: scope filtering enabled, no sources. -/
def cfgScopefilterOnly : Config :=
  { egBaseConfig with
    scopefilter := true
    scopefilter_prefixes := ["192.0.2.0/24"]
    scopefilter_asns := [64500] }

/-- Fixture: a live scope-filter update process handle. -/
def egScopeFilterProcess : ScheduledTaskProcess :=
  { runner := { cls := .ScopeFilterUpdateRunner, source_kwarg := none }
    name := "ScopeFilterUpdateRunner", started := true }

/-- Fixture: a scheduler state in which a scope-filter update is still
running. -/
def stLiveScopeFilter : MirrorScheduler :=
  { MirrorScheduler.init with
    processes := [("ScopeFilterUpdateRunner", egScopeFilterProcess)]
    last_started_time := [("ScopeFilterUpdateRunner", 50)] }

/-! ### Helper lemmas about the association-list dictionaries -/

theorem alookup_ainsert_self {α : Type} (m : List (Identity × α)) (k : Identity) (v : α) :
    alookup (ainsert m k v) k = some v := by
  induction m with
  | nil => simp [ainsert, alookup]
  | cons e rest ih =>
    obtain ⟨k', v'⟩ := e
    by_cases h : k' = k
    · simp [ainsert, h, alookup]
    · simp [ainsert, h, alookup, ih]

theorem alookup_ainsert_ne {α : Type} (m : List (Identity × α)) (k k' : Identity)
    (v : α) (h : k ≠ k') : alookup (ainsert m k v) k' = alookup m k' := by
  induction m with
  | nil => simp [ainsert, alookup, h]
  | cons e rest ih =>
    obtain ⟨k'', v''⟩ := e
    by_cases h2 : k'' = k
    · subst h2
      simp [ainsert, alookup, h]
    · simp [ainsert, h2, alookup, ih]

theorem lookupLast_ainsert_self (m : List (Identity × Int)) (k : Identity) (v : Int) :
    lookupLast (ainsert m k v) k = v := by
  simp [lookupLast, alookup_ainsert_self]

/-! ### Case lemmas for run_if_relevant -/

theorem run_if_relevant_blocked (st : MirrorScheduler) (source : Option String)
    (rc : RunnerClass) (timer : Int) (now : ℚ)
    (h : (alookup st.processes (processName rc source)).isSome = true) :
    run_if_relevant st source rc timer now = (false, st) := by
  unfold run_if_relevant
  simp [h]

theorem run_if_relevant_not_expired (st : MirrorScheduler) (source : Option String)
    (rc : RunnerClass) (timer : Int) (now : ℚ)
    (h : has_expired (lookupLast st.last_started_time (processName rc source)) timer now
      = false) :
    run_if_relevant st source rc timer now = (false, st) := by
  unfold run_if_relevant
  simp [h]

theorem run_if_relevant_launch (st : MirrorScheduler) (source : Option String)
    (rc : RunnerClass) (timer : Int) (now : ℚ)
    (h1 : has_expired (lookupLast st.last_started_time (processName rc source)) timer now
      = true)
    (h2 : alookup st.processes (processName rc source) = none) :
    run_if_relevant st source rc timer now =
      (true,
        { st with
          processes := ainsert st.processes (processName rc source)
            ⟨⟨rc, if optStrTruthy source then source else none⟩,
              processName rc source, true⟩
          last_started_time :=
            ainsert st.last_started_time (processName rc source) (pyTrunc now) }) := by
  unfold run_if_relevant
  simp [h1, h2]

theorem run_if_relevant_false_frame (st : MirrorScheduler) (source : Option String)
    (rc : RunnerClass) (timer : Int) (now : ℚ)
    (h : (run_if_relevant st source rc timer now).1 = false) :
    (run_if_relevant st source rc timer now).2 = st := by
  by_cases hc : (!has_expired (lookupLast st.last_started_time (processName rc source))
      timer now || (alookup st.processes (processName rc source)).isSome) = true
  · unfold run_if_relevant
    simp [hc]
  · unfold run_if_relevant at h
    simp [hc] at h


theorem alookup_filter_not {α : Type} (m : List (Identity × α)) (p : Identity → Bool)
    (k : Identity) (h : p k = false) :
    alookup (m.filter (fun e => p e.1)) k = none := by
  induction m with
  | nil => rfl
  | cons e rest ih =>
    obtain ⟨k', v⟩ := e
    by_cases h2 : p k' = true
    · have hne : k' ≠ k := by
        intro he
        rw [he, h] at h2
        exact Bool.false_ne_true h2
      simp [List.filter_cons, h2, alookup, hne, ih]
    · simp only [Bool.not_eq_true] at h2
      simp [List.filter_cons, h2, ih]

/-- The elementwise behaviour of one `update_process_state` pass over the
process dict. -/
theorem reapProcesses_spec (ia cf : Identity → Bool)
    (m : List (Identity × ScheduledTaskProcess)) :
    (reapProcesses ia cf m).procs = m.filter (fun e => ia e.1)
    ∧ (reapProcesses ia cf m).closed = (m.filter (fun e => !ia e.1)).map (fun e => e.1)
    ∧ (reapProcesses ia cf m).errors
        = ((m.filter (fun e => !ia e.1)).map (fun e => e.1)).filter (fun n => cf n)
    ∧ (reapProcesses ia cf m).gc_collect_needed = m.any (fun e => !ia e.1) := by
  induction m with
  | nil => simp [reapProcesses]
  | cons e rest ih =>
    obtain ⟨name, p⟩ := e
    by_cases h : ia name = true
    · simp [reapProcesses, h, ih.1, ih.2.1, ih.2.2.1, ih.2.2.2]
    · simp only [Bool.not_eq_true] at h
      by_cases h2 : cf name = true
      · simp [reapProcesses, h, h2, ih.1, ih.2.1, ih.2.2.1, ih.2.2.2]
      · simp only [Bool.not_eq_true] at h2
        simp [reapProcesses, h, h2, ih.1, ih.2.1, ih.2.2.1, ih.2.2.2]

/-- Modelled from the spec's words, for comparison with `has_expired`: a job
is "due" when `now >= last_started + timer`. -/
def specDue (last timer : Int) (now : ℚ) : Bool :=
  decide (((last + timer : Int) : ℚ) ≤ now)

/-! ### Claim theorems -/

/-- C1: a Job Identity has at most one live Process Handle: with a handle
recorded for the identity, `run_if_relevant` returns `false` and records no
new handle; and with `timer = 0`, no prior handle and a never-started
identity, repeated calls return `true` exactly once, then `false` while the
first handle is live. -/
theorem C1_at_most_one_live_handle (st : MirrorScheduler) (source : Option String)
    (rc : RunnerClass) (timer : Int) (now : ℚ) :
    ((alookup st.processes (processName rc source)).isSome = true →
      run_if_relevant st source rc timer now = (false, st))
    ∧ (alookup st.processes (processName rc source) = none →
       alookup st.last_started_time (processName rc source) = none →
       0 < now →
       (run_if_relevant st source rc 0 now).1 = true ∧
       ∀ now2 : ℚ, (run_if_relevant (run_if_relevant st source rc 0 now).2
         source rc 0 now2).1 = false) := by
  constructor
  · exact run_if_relevant_blocked st source rc timer now
  · intro hnone hlast hnow
    have hl : lookupLast st.last_started_time (processName rc source) = 0 := by
      simp [lookupLast, hlast]
    have hexp : has_expired (lookupLast st.last_started_time (processName rc source))
        0 now = true := by
      rw [hl]
      simp [has_expired]
      exact hnow
    have hlaunch := run_if_relevant_launch st source rc 0 now hexp hnone
    refine ⟨by rw [hlaunch], fun now2 => ?_⟩
    rw [hlaunch]
    have hsome : (alookup (ainsert st.processes (processName rc source)
        ⟨⟨rc, if optStrTruthy source then source else none⟩,
          processName rc source, true⟩) (processName rc source)).isSome = true := by
      rw [alookup_ainsert_self]
      rfl
    rw [run_if_relevant_blocked _ source rc 0 now2 hsome]

/-- C1 witness: on a fresh scheduler with `timer = 0` at `now = 1`, the first
call returns `true` and an immediate second call returns `false`. -/
theorem C1_at_most_one_live_handle_witness :
    (run_if_relevant MirrorScheduler.init none .ROAImportRunner 0 1).1 = true ∧
    (run_if_relevant (run_if_relevant MirrorScheduler.init none .ROAImportRunner 0 1).2
      none .ROAImportRunner 0 2).1 = false := by
  have h := (C1_at_most_one_live_handle MirrorScheduler.init none .ROAImportRunner 0 1).2
    rfl rfl (by decide)
  exact ⟨h.1, h.2 2⟩

/-- C2 counterexample: at `last_started = 0`, `timer = 5`, `now = 5`, the
claimed due condition `now >= last_started + timer` holds (`specDue`), no
handle is recorded, yet the code's `has_expired` is `false` and
`run_if_relevant` returns `false`: the code's due test is strict. -/
theorem C2_counterexample :
    specDue 0 5 (5 : ℚ) = true ∧ has_expired 0 5 (5 : ℚ) = false ∧
    alookup MirrorScheduler.init.processes (processName .ROAImportRunner none) = none ∧
    run_if_relevant MirrorScheduler.init none .ROAImportRunner 5 5
      = (false, MirrorScheduler.init) := by
  refine ⟨by decide, by decide, rfl, by decide⟩

/-- C2 amended: `run_if_relevant` considers the job due exactly when
`now > last_started[identity] + timer` (strictly), where `last_started`
defaults to `0` for an identity never started; it returns `false`, with the
state unchanged, when the job is not due. -/
theorem C2_due_iff_strictly_later (st : MirrorScheduler) (source : Option String)
    (rc : RunnerClass) (timer : Int) (now : ℚ) :
    (has_expired (lookupLast st.last_started_time (processName rc source)) timer now = true
      ↔ ((lookupLast st.last_started_time (processName rc source) + timer : Int) : ℚ) < now)
    ∧ (alookup st.last_started_time (processName rc source) = none →
        lookupLast st.last_started_time (processName rc source) = 0)
    ∧ (has_expired (lookupLast st.last_started_time (processName rc source)) timer now
        = false →
        run_if_relevant st source rc timer now = (false, st)) := by
  refine ⟨by simp [has_expired], ?_, run_if_relevant_not_expired st source rc timer now⟩
  intro h
  simp [lookupLast, h]

/-- C2 witness: the amended theorem applied on a fresh scheduler at
`timer = 5`, `now = 5` (not due, since `5 > 0 + 5` fails). -/
theorem C2_due_iff_strictly_later_witness :
    run_if_relevant MirrorScheduler.init none .ROAImportRunner 5 (5 : ℚ)
      = (false, MirrorScheduler.init) :=
  (C2_due_iff_strictly_later MirrorScheduler.init none .ROAImportRunner 5 5).2.2 (by decide)

/-- C7: whenever `run_if_relevant` returns `true`, it has recorded under the
identity a new started Process Handle wrapping the Job Runner constructed
with the source keyword exactly when a source is given, and has stamped
`last_started[identity]` with the entry time truncated to whole seconds. -/
theorem C7_launch_records_handle_and_time (st : MirrorScheduler)
    (source : Option String) (rc : RunnerClass) (timer : Int) (now : ℚ)
    (hsource : ∀ s, source = some s → s ≠ "")
    (h : (run_if_relevant st source rc timer now).1 = true) :
    alookup (run_if_relevant st source rc timer now).2.processes
        (processName rc source)
      = some ⟨⟨rc, source⟩, processName rc source, true⟩
    ∧ lookupLast (run_if_relevant st source rc timer now).2.last_started_time
        (processName rc source) = pyTrunc now := by
  by_cases hc : (!has_expired (lookupLast st.last_started_time (processName rc source))
      timer now || (alookup st.processes (processName rc source)).isSome) = true
  · exfalso
    unfold run_if_relevant at h
    simp [hc] at h
  · simp only [Bool.or_eq_true, not_or, Bool.not_eq_true, Bool.not_eq_false] at hc
    have hexp : has_expired (lookupLast st.last_started_time (processName rc source))
        timer now = true := by simpa using hc.1
    have hnone : alookup st.processes (processName rc source) = none := by
      have := hc.2
      cases halook : alookup st.processes (processName rc source) with
      | none => rfl
      | some p => rw [halook] at this; simp at this
    have hkw : (if optStrTruthy source then source else none) = source := by
      cases source with
      | none => simp [optStrTruthy]
      | some s =>
        have hs : s ≠ "" := hsource s rfl
        have : s.isEmpty = false := by
          cases he : s.isEmpty
          · rfl
          · exact absurd ((String.isEmpty_iff s).mp he) hs
        simp [optStrTruthy, this]
    have hlaunch := run_if_relevant_launch st source rc timer now hexp hnone
    rw [hlaunch]
    constructor
    · rw [show (true, _) = _ from rfl]
      simp only
      rw [alookup_ainsert_self, hkw]
    · exact lookupLast_ainsert_self st.last_started_time (processName rc source) (pyTrunc now)

/-- C7 witness: launching the mirror import for source `"RIPE"` at
`now = 7.5` records the handle with the source keyword and stamps
`last_started` to `7`. -/
theorem C7_launch_records_handle_and_time_witness :
    (alookup (run_if_relevant MirrorScheduler.init (some "RIPE")
        .RPSLMirrorImportUpdateRunner 0 (mkRat 15 2)).2.processes
        (processName .RPSLMirrorImportUpdateRunner (some "RIPE"))
      = some ⟨⟨.RPSLMirrorImportUpdateRunner, some "RIPE"⟩,
          processName .RPSLMirrorImportUpdateRunner (some "RIPE"), true⟩
    ∧ lookupLast (run_if_relevant MirrorScheduler.init (some "RIPE")
        .RPSLMirrorImportUpdateRunner 0 (mkRat 15 2)).2.last_started_time
        (processName .RPSLMirrorImportUpdateRunner (some "RIPE"))
      = pyTrunc (mkRat 15 2))
    ∧ pyTrunc (mkRat 15 2) = 7 :=
  ⟨C7_launch_records_handle_and_time MirrorScheduler.init (some "RIPE")
      .RPSLMirrorImportUpdateRunner 0 (mkRat 15 2)
      (by intro s hs; injection hs with h2; rw [← h2]; decide) (by decide),
    by decide⟩

/-- C9: whenever `run_if_relevant` returns `false` it has no side effects:
the state (in particular the live-handle map, and the last-started value of
every identity) is unchanged, so no process was created. -/
theorem C9_false_return_no_side_effects (st : MirrorScheduler)
    (source : Option String) (rc : RunnerClass) (timer : Int) (now : ℚ)
    (h : (run_if_relevant st source rc timer now).1 = false) :
    (run_if_relevant st source rc timer now).2 = st
    ∧ (run_if_relevant st source rc timer now).2.processes = st.processes
    ∧ ∀ k, lookupLast (run_if_relevant st source rc timer now).2.last_started_time k
        = lookupLast st.last_started_time k := by
  have hf := run_if_relevant_false_frame st source rc timer now h
  exact ⟨hf, by rw [hf], fun k => by rw [hf]⟩

/-- C9 witness: the not-due call on a fresh scheduler leaves the state
unchanged. -/
theorem C9_false_return_no_side_effects_witness :
    (run_if_relevant MirrorScheduler.init none .ROAImportRunner 5 (5 : ℚ)).2
      = MirrorScheduler.init :=
  (C9_false_return_no_side_effects MirrorScheduler.init none .ROAImportRunner 5 5
    (by decide)).1

/-- C5: `update_process_state` removes exactly the tracked handles whose
process is no longer alive, invoking each removed handle's `close()`; a
`close()` error is only logged, and the handle is removed regardless (the
surviving dict does not depend on which `close()` calls fail); handles still
alive are left untouched, and `last_started_time` is untouched. -/
theorem C5_update_reaps_exactly_dead (st : MirrorScheduler)
    (is_alive close_fails : Identity → Bool) :
    (update_process_state st is_alive close_fails).state.processes
        = st.processes.filter (fun e => is_alive e.1)
    ∧ (update_process_state st is_alive close_fails).closed
        = (st.processes.filter (fun e => !is_alive e.1)).map (fun e => e.1)
    ∧ (update_process_state st is_alive close_fails).errors
        = ((st.processes.filter (fun e => !is_alive e.1)).map (fun e => e.1)).filter
            (fun n => close_fails n)
    ∧ (∀ close_fails2 : Identity → Bool,
        (update_process_state st is_alive close_fails2).state.processes
          = (update_process_state st is_alive close_fails).state.processes)
    ∧ (update_process_state st is_alive close_fails).state.last_started_time
        = st.last_started_time := by
  have h := reapProcesses_spec is_alive close_fails st.processes
  refine ⟨h.1, h.2.1, h.2.2.1, ?_, rfl⟩
  intro cf2
  have h2 := reapProcesses_spec is_alive cf2 st.processes
  show (reapProcesses is_alive cf2 st.processes).procs
    = (reapProcesses is_alive close_fails st.processes).procs
  rw [h.1, h2.1]

/-- C6: if the handle for an identity is removed by `update_process_state`
(its process no longer alive), a subsequent `run_if_relevant` for the same
identity whose due condition holds returns `true` again. -/
theorem C6_relaunch_after_reap (st : MirrorScheduler)
    (is_alive close_fails : Identity → Bool) (source : Option String)
    (rc : RunnerClass) (timer : Int) (now : ℚ) (p : ScheduledTaskProcess)
    (_hhad : alookup st.processes (processName rc source) = some p)
    (hdead : is_alive (processName rc source) = false)
    (hdue : has_expired
      (lookupLast (update_process_state st is_alive close_fails).state.last_started_time
        (processName rc source)) timer now = true) :
    (run_if_relevant (update_process_state st is_alive close_fails).state
      source rc timer now).1 = true := by
  have hspec := reapProcesses_spec is_alive close_fails st.processes
  have hnone : alookup (update_process_state st is_alive close_fails).state.processes
      (processName rc source) = none := by
    show alookup (reapProcesses is_alive close_fails st.processes).procs
      (processName rc source) = none
    rw [hspec.1]
    exact alookup_filter_not st.processes is_alive (processName rc source) hdead
  rw [run_if_relevant_launch _ source rc timer now hdue hnone]

/-- C6 witness: a dead `ROAImportRunner` handle is reaped and the next due
call relaunches. -/
theorem C6_relaunch_after_reap_witness :
    (run_if_relevant
      (update_process_state
        { MirrorScheduler.init with
          processes := [("ROAImportRunner",
            ⟨⟨.ROAImportRunner, none⟩, "ROAImportRunner", true⟩)]
          last_started_time := [("ROAImportRunner", 1)] }
        (fun _ => false) (fun _ => false)).state
      none .ROAImportRunner 2 10).1 = true :=
  C6_relaunch_after_reap
    { MirrorScheduler.init with
      processes := [("ROAImportRunner",
        ⟨⟨.ROAImportRunner, none⟩, "ROAImportRunner", true⟩)]
      last_started_time := [("ROAImportRunner", 1)] }
    (fun _ => false) (fun _ => false) none .ROAImportRunner 2 10
    ⟨⟨.ROAImportRunner, none⟩, "ROAImportRunner", true⟩ (by decide) rfl (by decide)

/-- C8: with the read-only-standby setting enabled, `run()` only invokes the
inline transaction-time preload signaller: no process is launched and the
live-handle map, last-started map and snapshots are unchanged, regardless of
all other settings. -/
theorem C8_readonly_standby_only_signals (cfg : Config) (st : MirrorScheduler)
    (now : ℚ) (h : cfg.readonly_standby = true) :
    (MirrorScheduler.run cfg st now).processes = st.processes
    ∧ (MirrorScheduler.run cfg st now).last_started_time = st.last_started_time
    ∧ (MirrorScheduler.run cfg st now).signaller_runs = st.signaller_runs + 1
    ∧ MirrorScheduler.run cfg st now
        = { st with signaller_runs := st.signaller_runs + 1 } := by
  have hrun : MirrorScheduler.run cfg st now
      = { st with signaller_runs := st.signaller_runs + 1 } := by
    unfold MirrorScheduler.run
    simp [h]
  exact ⟨by rw [hrun], by rw [hrun], by rw [hrun], hrun⟩

/-- C8 witness: a standby configuration with every job kind otherwise
enabled and due still changes nothing but the signaller count. -/
theorem C8_readonly_standby_only_signals_witness :
    MirrorScheduler.run
      { readonly_standby := true, rpki_roa_source := true
        rpki_roa_import_timer := 0, route_object_preference_update_timer := 0
        scopefilter := true, scopefilter_prefixes := ["192.0.2.0/24"]
        scopefilter_asns := [64500]
        sources := [("RIPE",
          { import_source := true, nrtm_host := true, import_timer := some 0
            export_destination := true, export_destination_unfiltered := true
            export_timer := some 0, route_object_preference := true
            scopefilter_excluded := true })] }
      MirrorScheduler.init 100
      = { MirrorScheduler.init with signaller_runs := 1 } :=
  (C8_readonly_standby_only_signals _ MirrorScheduler.init 100 rfl).2.2.2

/-- C4: the scope-filter change detector returns `false` whenever scope
filtering is disabled; with filtering enabled the first-ever call returns
`true`; a call returning `true` overwrites the stored snapshot with the
current one, so an immediate second call with identical configuration
returns `false`; and with a stored snapshot, a call after changing the
prefix list, the ASN list or the exclusion set returns `true`. -/
theorem C4_scopefilter_change_detector (cfg cfg2 : Config) (st : MirrorScheduler) :
    (cfg.scopefilter = false → check_scopefilter_change cfg st = (false, st))
    ∧ (cfg.scopefilter = true → st.previous_scopefilter_prefixes = none →
        (check_scopefilter_change cfg st).1 = true)
    ∧ ((check_scopefilter_change cfg st).1 = true →
        (check_scopefilter_change cfg st).2.previous_scopefilter_prefixes
            = some cfg.scopefilter_prefixes
        ∧ (check_scopefilter_change cfg st).2.previous_scopefilter_asns
            = some cfg.scopefilter_asns
        ∧ (check_scopefilter_change cfg st).2.previous_scopefilter_excluded
            = some (currentExclusions cfg)
        ∧ check_scopefilter_change cfg (check_scopefilter_change cfg st).2
            = (false, (check_scopefilter_change cfg st).2))
    ∧ (cfg2.scopefilter = true →
        st.previous_scopefilter_prefixes = some cfg.scopefilter_prefixes →
        st.previous_scopefilter_asns = some cfg.scopefilter_asns →
        st.previous_scopefilter_excluded = some (currentExclusions cfg) →
        (cfg2.scopefilter_prefixes ≠ cfg.scopefilter_prefixes
          ∨ cfg2.scopefilter_asns ≠ cfg.scopefilter_asns
          ∨ currentExclusions cfg2 ≠ currentExclusions cfg) →
        (check_scopefilter_change cfg2 st).1 = true) := by
  refine ⟨?_, ?_, ?_, ?_⟩
  · intro h
    unfold check_scopefilter_change
    simp [h]
  · intro h hfst
    unfold check_scopefilter_change
    simp [h, hfst]
  · intro h
    by_cases hsf : cfg.scopefilter = true
    · by_cases hch : st.previous_scopefilter_prefixes ≠ some cfg.scopefilter_prefixes
          ∨ st.previous_scopefilter_asns ≠ some cfg.scopefilter_asns
          ∨ st.previous_scopefilter_excluded ≠ some (currentExclusions cfg)
      · have hres : check_scopefilter_change cfg st
            = (true,
              { st with
                previous_scopefilter_prefixes := some cfg.scopefilter_prefixes
                previous_scopefilter_asns := some cfg.scopefilter_asns
                previous_scopefilter_excluded := some (currentExclusions cfg) }) := by
          unfold check_scopefilter_change
          rw [hsf]
          simp only [Bool.not_true, Bool.false_eq_true, if_false]
          rw [if_pos hch]
        rw [hres]
        refine ⟨rfl, rfl, rfl, ?_⟩
        unfold check_scopefilter_change
        rw [hsf]
        simp
      · exfalso
        unfold check_scopefilter_change at h
        rw [hsf] at h
        simp only [Bool.not_true, Bool.false_eq_true, if_false] at h
        rw [if_neg hch] at h
        exact Bool.false_ne_true h
    · exfalso
      simp only [Bool.not_eq_true] at hsf
      unfold check_scopefilter_change at h
      simp [hsf] at h
  · intro h2 hp ha he hdiff
    unfold check_scopefilter_change
    rw [h2]
    simp only [Bool.not_true, Bool.false_eq_true, if_false]
    have hch : st.previous_scopefilter_prefixes ≠ some cfg2.scopefilter_prefixes
        ∨ st.previous_scopefilter_asns ≠ some cfg2.scopefilter_asns
        ∨ st.previous_scopefilter_excluded ≠ some (currentExclusions cfg2) := by
      rcases hdiff with hd | hd | hd
      · refine Or.inl ?_
        rw [hp]
        intro hcon
        exact hd (Option.some.inj hcon).symm
      · refine Or.inr (Or.inl ?_)
        rw [ha]
        intro hcon
        exact hd (Option.some.inj hcon).symm
      · refine Or.inr (Or.inr ?_)
        rw [he]
        intro hcon
        exact hd (Option.some.inj hcon).symm
    rw [if_pos hch]

/-- C4 witness: disabled filtering returns `false` unchanged; on a fresh
state with filtering enabled the first call returns `true`. -/
theorem C4_scopefilter_change_detector_witness :
    check_scopefilter_change egBaseConfig MirrorScheduler.init
      = (false, MirrorScheduler.init)
    ∧ (check_scopefilter_change cfgScopefilterOnly MirrorScheduler.init).1 = true :=
  ⟨(C4_scopefilter_change_detector egBaseConfig egBaseConfig MirrorScheduler.init).1 rfl,
    (C4_scopefilter_change_detector cfgScopefilterOnly cfgScopefilterOnly
      MirrorScheduler.init).2.1 rfl rfl⟩

/-! ### Helper lemmas for the run() pass -/

theorem runSources_counter_le (now : ℚ) (srcs : List (String × SourceSettings))
    (st : MirrorScheduler) (n : Nat) (h : n ≤ MAX_SIMULTANEOUS_RUNS) :
    (runSources now srcs st n).2 ≤ MAX_SIMULTANEOUS_RUNS := by
  induction srcs generalizing st n with
  | nil => simpa [runSources] using h
  | cons e rest ih =>
    obtain ⟨source, ss⟩ := e
    have hmax : MAX_SIMULTANEOUS_RUNS = 3 := rfl
    unfold runSources
    split
    · exact h
    · rename_i hb
      have hb3 : n < 3 := by
        rw [hmax] at hb
        omega
      dsimp only
      apply ih
      have hgen : ∀ (b : Bool), (if b = true then n + 1 else n) ≤ MAX_SIMULTANEOUS_RUNS := by
        intro b
        rw [hmax]
        cases b
        · simp only [Bool.false_eq_true, if_false]
          omega
        · simp only [if_true]
          omega
      exact hgen _

theorem runSources_at_cap (now : ℚ) (srcs : List (String × SourceSettings))
    (st : MirrorScheduler) :
    runSources now srcs st MAX_SIMULTANEOUS_RUNS = (st, MAX_SIMULTANEOUS_RUNS) := by
  cases srcs with
  | nil => rfl
  | cons e rest =>
    obtain ⟨source, ss⟩ := e
    unfold runSources
    simp

theorem rpsl_name_ne (s : String) :
    "RPSLMirrorImportUpdateRunner" ++ "-" ++ s ≠ "ScopeFilterUpdateRunner" := by
  intro h
  have h2 : ("RPSLMirrorImportUpdateRunner" ++ "-" ++ s).data
      = "ScopeFilterUpdateRunner".data := by rw [h]
  rw [String.data_append, String.data_append] at h2
  have h3 : "RPSLMirrorImportUpdateRunner".data
      = 'R' :: "PSLMirrorImportUpdateRunner".data := rfl
  rw [h3] at h2
  simp at h2

theorem export_name_ne (s : String) :
    "SourceExportRunner" ++ "-" ++ s ≠ "ScopeFilterUpdateRunner" := by
  intro h
  have h2 : ("SourceExportRunner" ++ "-" ++ s).data
      = "ScopeFilterUpdateRunner".data := by rw [h]
  rw [String.data_append, String.data_append] at h2
  have h3 : "SourceExportRunner".data = 'S' :: 'o' :: "urceExportRunner".data := rfl
  rw [h3] at h2
  simp at h2

theorem processName_mirror_ne (s : String) :
    processName .RPSLMirrorImportUpdateRunner (some s) ≠ "ScopeFilterUpdateRunner" := by
  unfold processName
  cases he : s.isEmpty with
  | true => simp [optStrTruthy, he, RunnerClass.className]
  | false =>
    simp only [optStrTruthy, he, Bool.not_false, if_true, Option.getD_some]
    exact rpsl_name_ne s

theorem processName_export_ne (s : String) :
    processName .SourceExportRunner (some s) ≠ "ScopeFilterUpdateRunner" := by
  unfold processName
  cases he : s.isEmpty with
  | true => simp [optStrTruthy, he, RunnerClass.className]
  | false =>
    simp only [optStrTruthy, he, Bool.not_false, if_true, Option.getD_some]
    exact export_name_ne s

theorem run_if_relevant_true_eq (st : MirrorScheduler) (source : Option String)
    (rc : RunnerClass) (timer : Int) (now : ℚ)
    (h : (run_if_relevant st source rc timer now).1 = true) :
    run_if_relevant st source rc timer now =
      (true,
        { st with
          processes := ainsert st.processes (processName rc source)
            ⟨⟨rc, if optStrTruthy source then source else none⟩,
              processName rc source, true⟩
          last_started_time :=
            ainsert st.last_started_time (processName rc source) (pyTrunc now) }) := by
  by_cases hc : (!has_expired (lookupLast st.last_started_time (processName rc source))
      timer now || (alookup st.processes (processName rc source)).isSome) = true
  · exfalso
    unfold run_if_relevant at h
    simp [hc] at h
  · simp only [Bool.or_eq_true, not_or, Bool.not_eq_true, Bool.not_eq_false] at hc
    have hexp : has_expired (lookupLast st.last_started_time (processName rc source))
        timer now = true := by simpa using hc.1
    have hnone : alookup st.processes (processName rc source) = none := by
      have h2 := hc.2
      cases halook : alookup st.processes (processName rc source) with
      | none => rfl
      | some p => rw [halook] at h2; simp at h2
    exact run_if_relevant_launch st source rc timer now hexp hnone

theorem run_if_relevant_alookup_other (st : MirrorScheduler) (source : Option String)
    (rc : RunnerClass) (timer : Int) (now : ℚ) (k : Identity)
    (h : processName rc source ≠ k) :
    alookup (run_if_relevant st source rc timer now).2.processes k
      = alookup st.processes k := by
  cases hr : (run_if_relevant st source rc timer now).1 with
  | false => rw [run_if_relevant_false_frame st source rc timer now hr]
  | true =>
    rw [run_if_relevant_true_eq st source rc timer now hr]
    exact alookup_ainsert_ne st.processes (processName rc source) k _ h

theorem sfPreserved_refl (st : MirrorScheduler) : sfPreserved st st :=
  ⟨rfl, rfl, rfl, rfl⟩

theorem sfPreserved_trans {a b c : MirrorScheduler}
    (h1 : sfPreserved a b) (h2 : sfPreserved b c) : sfPreserved a c :=
  ⟨h1.1.trans h2.1, h1.2.1.trans h2.2.1, h1.2.2.1.trans h2.2.2.1,
    h1.2.2.2.trans h2.2.2.2⟩

theorem run_if_relevant_sfPreserved (st : MirrorScheduler) (source : Option String)
    (rc : RunnerClass) (timer : Int) (now : ℚ)
    (h : processName rc source ≠ "ScopeFilterUpdateRunner") :
    sfPreserved (run_if_relevant st source rc timer now).2 st := by
  refine ⟨run_if_relevant_alookup_other st source rc timer now _ h, ?_, ?_, ?_⟩
  all_goals
    cases hr : (run_if_relevant st source rc timer now).1 with
    | false => rw [run_if_relevant_false_frame st source rc timer now hr]
    | true => rw [run_if_relevant_true_eq st source rc timer now hr]

theorem step_sfPreserved (st : MirrorScheduler) (source : String) (rc : RunnerClass)
    (timer : Int) (now : ℚ) (b : Bool)
    (h : processName rc (some source) ≠ "ScopeFilterUpdateRunner") :
    sfPreserved (if b then run_if_relevant st (some source) rc timer now
      else (false, st)).2 st := by
  cases b
  · exact sfPreserved_refl st
  · simp only [if_true]
    exact run_if_relevant_sfPreserved st (some source) rc timer now h

theorem runSources_sfPreserved (now : ℚ) (srcs : List (String × SourceSettings))
    (st : MirrorScheduler) (n : Nat) :
    sfPreserved (runSources now srcs st n).1 st := by
  induction srcs generalizing st n with
  | nil => exact sfPreserved_refl st
  | cons e rest ih =>
    obtain ⟨source, ss⟩ := e
    unfold runSources
    split
    · exact sfPreserved_refl st
    · dsimp only
      refine sfPreserved_trans (ih _ _) ?_
      refine sfPreserved_trans
        (step_sfPreserved _ source .SourceExportRunner _ now _
          (processName_export_ne source)) ?_
      exact step_sfPreserved st source .RPSLMirrorImportUpdateRunner _ now _
        (processName_mirror_ne source)

theorem branch_sfPreserved (st : MirrorScheduler) (b : Bool) (rc : RunnerClass)
    (timer : Int) (now : ℚ)
    (h : processName rc none ≠ "ScopeFilterUpdateRunner") :
    sfPreserved (if b then (run_if_relevant st none rc timer now).2 else st) st := by
  cases b
  · exact sfPreserved_refl st
  · simp only [if_true]
    exact run_if_relevant_sfPreserved st none rc timer now h

theorem check_true_of_mismatch (cfg : Config) (st : MirrorScheduler)
    (hsf : cfg.scopefilter = true)
    (hch : st.previous_scopefilter_prefixes ≠ some cfg.scopefilter_prefixes
      ∨ st.previous_scopefilter_asns ≠ some cfg.scopefilter_asns
      ∨ st.previous_scopefilter_excluded ≠ some (currentExclusions cfg)) :
    check_scopefilter_change cfg st
      = (true,
        { st with
          previous_scopefilter_prefixes := some cfg.scopefilter_prefixes
          previous_scopefilter_asns := some cfg.scopefilter_asns
          previous_scopefilter_excluded := some (currentExclusions cfg) }) := by
  unfold check_scopefilter_change
  rw [hsf]
  simp only [Bool.not_true, Bool.false_eq_true, if_false]
  rw [if_pos hch]

theorem check_false_of_match (cfg : Config) (st : MirrorScheduler)
    (hsf : cfg.scopefilter = true)
    (hp : st.previous_scopefilter_prefixes = some cfg.scopefilter_prefixes)
    (ha : st.previous_scopefilter_asns = some cfg.scopefilter_asns)
    (he : st.previous_scopefilter_excluded = some (currentExclusions cfg)) :
    check_scopefilter_change cfg st = (false, st) := by
  unfold check_scopefilter_change
  rw [hsf]
  simp [hp, ha, he]

theorem runSingletonJobs_blocked_change (cfg : Config) (st : MirrorScheduler)
    (now : ℚ) (hsf : cfg.scopefilter = true)
    (hch : st.previous_scopefilter_prefixes ≠ some cfg.scopefilter_prefixes
      ∨ st.previous_scopefilter_asns ≠ some cfg.scopefilter_asns
      ∨ st.previous_scopefilter_excluded ≠ some (currentExclusions cfg))
    (p : ScheduledTaskProcess)
    (hlive : alookup st.processes "ScopeFilterUpdateRunner" = some p) :
    alookup (runSingletonJobs cfg st now).processes "ScopeFilterUpdateRunner" = some p
    ∧ (runSingletonJobs cfg st now).previous_scopefilter_prefixes
        = some cfg.scopefilter_prefixes
    ∧ (runSingletonJobs cfg st now).previous_scopefilter_asns
        = some cfg.scopefilter_asns
    ∧ (runSingletonJobs cfg st now).previous_scopefilter_excluded
        = some (currentExclusions cfg) := by
  unfold runSingletonJobs
  dsimp only
  set stA := (if cfg.rpki_roa_source then
      (run_if_relevant st none .ROAImportRunner cfg.rpki_roa_import_timer now).2
    else st) with hA
  have pres1 : sfPreserved stA st :=
    branch_sfPreserved st cfg.rpki_roa_source .ROAImportRunner _ now (by decide)
  set stB := (if (!cfg.sources.isEmpty
        && cfg.sources.any fun e => e.2.route_object_preference) then
      (run_if_relevant stA none .RoutePreferenceUpdateRunner
        cfg.route_object_preference_update_timer now).2
    else stA) with hB
  have pres2 : sfPreserved stB stA :=
    branch_sfPreserved stA _ .RoutePreferenceUpdateRunner _ now (by decide)
  have presB : sfPreserved stB st := sfPreserved_trans pres2 pres1
  have hchB : stB.previous_scopefilter_prefixes ≠ some cfg.scopefilter_prefixes
      ∨ stB.previous_scopefilter_asns ≠ some cfg.scopefilter_asns
      ∨ stB.previous_scopefilter_excluded ≠ some (currentExclusions cfg) := by
    rcases hch with hd | hd | hd
    · refine Or.inl ?_
      rw [presB.2.1]
      exact hd
    · refine Or.inr (Or.inl ?_)
      rw [presB.2.2.1]
      exact hd
    · refine Or.inr (Or.inr ?_)
      rw [presB.2.2.2]
      exact hd
  have hcheck := check_true_of_mismatch cfg stB hsf hchB
  rw [hcheck]
  dsimp only
  have hlookB : alookup
      ({ stB with
        previous_scopefilter_prefixes := some cfg.scopefilter_prefixes
        previous_scopefilter_asns := some cfg.scopefilter_asns
        previous_scopefilter_excluded :=
          some (currentExclusions cfg) } : MirrorScheduler).processes
      "ScopeFilterUpdateRunner" = some p := by
    show alookup stB.processes "ScopeFilterUpdateRunner" = some p
    rw [presB.1]
    exact hlive
  have hblocked := run_if_relevant_blocked
    { stB with
      previous_scopefilter_prefixes := some cfg.scopefilter_prefixes
      previous_scopefilter_asns := some cfg.scopefilter_asns
      previous_scopefilter_excluded := some (currentExclusions cfg) }
    none .ScopeFilterUpdateRunner 0 now
    (by rw [show processName .ScopeFilterUpdateRunner none
        = "ScopeFilterUpdateRunner" from rfl, hlookB]; rfl)
  rw [if_pos rfl, hblocked]
  exact ⟨hlookB, rfl, rfl, rfl⟩

theorem runSingletonJobs_no_change (cfg : Config) (st : MirrorScheduler) (now : ℚ)
    (hsf : cfg.scopefilter = true)
    (hp : st.previous_scopefilter_prefixes = some cfg.scopefilter_prefixes)
    (ha : st.previous_scopefilter_asns = some cfg.scopefilter_asns)
    (he : st.previous_scopefilter_excluded = some (currentExclusions cfg)) :
    alookup (runSingletonJobs cfg st now).processes "ScopeFilterUpdateRunner"
      = alookup st.processes "ScopeFilterUpdateRunner" := by
  unfold runSingletonJobs
  dsimp only
  set stA := (if cfg.rpki_roa_source then
      (run_if_relevant st none .ROAImportRunner cfg.rpki_roa_import_timer now).2
    else st) with hA
  have pres1 : sfPreserved stA st :=
    branch_sfPreserved st cfg.rpki_roa_source .ROAImportRunner _ now (by decide)
  set stB := (if (!cfg.sources.isEmpty
        && cfg.sources.any fun e => e.2.route_object_preference) then
      (run_if_relevant stA none .RoutePreferenceUpdateRunner
        cfg.route_object_preference_update_timer now).2
    else stA) with hB
  have pres2 : sfPreserved stB stA :=
    branch_sfPreserved stA _ .RoutePreferenceUpdateRunner _ now (by decide)
  have presB : sfPreserved stB st := sfPreserved_trans pres2 pres1
  have hcheck := check_false_of_match cfg stB hsf
    (by rw [presB.2.1]; exact hp) (by rw [presB.2.2.1]; exact ha)
    (by rw [presB.2.2.2]; exact he)
  rw [hcheck]
  dsimp only
  rw [if_neg (by simp)]
  exact presB.1

/-- C3: in one non-standby `run()` pass, at most `MAX_SIMULTANEOUS_RUNS = 3`
sources are counted as having started a mirror-import or export job in the
source loop, and a loop entered at the cap evaluates no source; with 5
mirror-enabled sources all due, exactly the first 3 start a job; a source
that starts no job does not count toward the cap (the idle-first scenario
starts its sources 2-4); and the three singleton jobs are exempt from the
cap (three singleton launches plus three source launches in one pass). -/
theorem C3_per_pass_source_cap :
    (∀ (now : ℚ) (srcs : List (String × SourceSettings)) (st : MirrorScheduler)
      (n : Nat), n ≤ MAX_SIMULTANEOUS_RUNS →
      (runSources now srcs st n).2 ≤ MAX_SIMULTANEOUS_RUNS
        ∧ runSources now srcs st MAX_SIMULTANEOUS_RUNS = (st, MAX_SIMULTANEOUS_RUNS))
    ∧ ((MirrorScheduler.run cfgFiveMirrorSources MirrorScheduler.init 100).processes.map
          (fun e => e.1)
        = ["RPSLMirrorImportUpdateRunner-S1", "RPSLMirrorImportUpdateRunner-S2",
           "RPSLMirrorImportUpdateRunner-S3"]
      ∧ (runSources 100 cfgFiveMirrorSources.sources MirrorScheduler.init 0).2 = 3)
    ∧ ((MirrorScheduler.run cfgIdleFirstSource MirrorScheduler.init 100).processes.map
        (fun e => e.1)
      = ["RPSLMirrorImportUpdateRunner-S2", "RPSLMirrorImportUpdateRunner-S3",
         "RPSLMirrorImportUpdateRunner-S4"])
    ∧ ((MirrorScheduler.run cfgSingletonsAndSources MirrorScheduler.init 100).processes.map
        (fun e => e.1)
      = ["ROAImportRunner", "RoutePreferenceUpdateRunner", "ScopeFilterUpdateRunner",
         "RPSLMirrorImportUpdateRunner-S1", "RPSLMirrorImportUpdateRunner-S2",
         "RPSLMirrorImportUpdateRunner-S3"]) := by
  refine ⟨fun now srcs st n h =>
    ⟨runSources_counter_le now srcs st n h, runSources_at_cap now srcs st⟩,
    ⟨by decide, by decide⟩, by decide, by decide⟩

/-- C3 witness: the general cap bound applied to the five-source scenario
from a fresh scheduler. -/
theorem C3_per_pass_source_cap_witness :
    (runSources 100 cfgFiveMirrorSources.sources MirrorScheduler.init 0).2
      ≤ MAX_SIMULTANEOUS_RUNS :=
  (C3_per_pass_source_cap.1 100 cfgFiveMirrorSources.sources MirrorScheduler.init 0
    (by decide)).1

/-- C10: with scope filtering enabled, a changed configuration and a still
live `ScopeFilterUpdateRunner` handle, a non-standby `run()` pass overwrites
the stored snapshot with the current configuration yet launches no
scope-filter job (the old handle stays recorded untouched); and any later
pass whose stored snapshot already equals the current configuration leaves
the `ScopeFilterUpdateRunner` entry unchanged, so the missed change is never
acted upon. -/
theorem C10_scopefilter_change_never_acted_on (cfg : Config) (st : MirrorScheduler)
    (now : ℚ) (p : ScheduledTaskProcess)
    (hro : cfg.readonly_standby = false)
    (hsf : cfg.scopefilter = true)
    (hlive : alookup st.processes "ScopeFilterUpdateRunner" = some p)
    (hch : st.previous_scopefilter_prefixes ≠ some cfg.scopefilter_prefixes
      ∨ st.previous_scopefilter_asns ≠ some cfg.scopefilter_asns
      ∨ st.previous_scopefilter_excluded ≠ some (currentExclusions cfg)) :
    ((MirrorScheduler.run cfg st now).previous_scopefilter_prefixes
        = some cfg.scopefilter_prefixes
      ∧ (MirrorScheduler.run cfg st now).previous_scopefilter_asns
        = some cfg.scopefilter_asns
      ∧ (MirrorScheduler.run cfg st now).previous_scopefilter_excluded
        = some (currentExclusions cfg)
      ∧ alookup (MirrorScheduler.run cfg st now).processes "ScopeFilterUpdateRunner"
        = some p)
    ∧ ∀ (st2 : MirrorScheduler) (now2 : ℚ),
        st2.previous_scopefilter_prefixes = some cfg.scopefilter_prefixes →
        st2.previous_scopefilter_asns = some cfg.scopefilter_asns →
        st2.previous_scopefilter_excluded = some (currentExclusions cfg) →
        alookup (MirrorScheduler.run cfg st2 now2).processes "ScopeFilterUpdateRunner"
          = alookup st2.processes "ScopeFilterUpdateRunner" := by
  have hrun : ∀ (stx : MirrorScheduler) (nowx : ℚ), MirrorScheduler.run cfg stx nowx
      = (runSources nowx cfg.sources (runSingletonJobs cfg stx nowx) 0).1 := by
    intro stx nowx
    unfold MirrorScheduler.run
    rw [hro]
    simp
  constructor
  · have hsj := runSingletonJobs_blocked_change cfg st now hsf hch p hlive
    have hrs := runSources_sfPreserved now cfg.sources (runSingletonJobs cfg st now) 0
    rw [hrun st now]
    exact ⟨hrs.2.1.trans hsj.2.1, hrs.2.2.1.trans hsj.2.2.1,
      hrs.2.2.2.trans hsj.2.2.2, hrs.1.trans hsj.1⟩
  · intro st2 now2 hp ha he
    have hsj := runSingletonJobs_no_change cfg st2 now2 hsf hp ha he
    have hrs := runSources_sfPreserved now2 cfg.sources (runSingletonJobs cfg st2 now2) 0
    rw [hrun st2 now2]
    exact hrs.1.trans hsj

/-- C10 witness: with a live scope-filter handle and a changed
configuration, the pass records the new snapshot yet the old handle is still
the recorded entry. -/
theorem C10_scopefilter_change_never_acted_on_witness :
    alookup (MirrorScheduler.run cfgScopefilterOnly stLiveScopeFilter 100).processes
        "ScopeFilterUpdateRunner" = some egScopeFilterProcess
    ∧ (MirrorScheduler.run cfgScopefilterOnly
        stLiveScopeFilter 100).previous_scopefilter_prefixes
      = some ["192.0.2.0/24"] := by
  have h := C10_scopefilter_change_never_acted_on cfgScopefilterOnly stLiveScopeFilter
    100 egScopeFilterProcess rfl rfl (by decide) (Or.inl (by decide))
  exact ⟨h.1.2.2.2, h.1.1⟩

end IrrdScheduler
